import Mathlib

/-!
Verification of the procedural displacement engine of the beating-heart
repository.

The repository ships two implementation variants of the same animation:
an optimized script (called variant 1 below, `_v1`) and a plain script
(variant 2, `_v2`).  Both are embedded here over exact rational
arithmetic (`ℚ`): every constant of the JavaScript `CONFIG` object is an
exact decimal, so all formulas transfer verbatim.  The 4D simplex noise
function is an external pure function and is modelled as an arbitrary
argument of type `Noise4`.
-/

/-- A 3-component vector, as used for positions (`THREE.Vector3`). -/
structure Vec3 where
  x : ℚ
  y : ℚ
  z : ℚ
  deriving DecidableEq, Repr

/-- An RGB color (`THREE.Color`). -/
structure Color3 where
  r : ℚ
  g : ℚ
  b : ℚ
  deriving DecidableEq, Repr

/-- `Vector3.multiplyScalar`: component-wise scaling by one scalar. -/
def scaleVec (v : Vec3) (s : ℚ) : Vec3 :=
  ⟨v.x * s, v.y * s, v.z * s⟩

/-- The type of the external 4D noise function (`simplex.noise4D`). -/
def Noise4 : Type := ℚ → ℚ → ℚ → ℚ → ℚ

/-! ## CONFIG constants (identical in both variants) -/

/-- `CONFIG.NOISE_SCALE = 1.5`. -/
def NOISE_SCALE : ℚ := 3/2

/-- `CONFIG.NOISE_FREQUENCY = 500`. -/
def NOISE_FREQUENCY : ℚ := 500

/-- `CONFIG.NOISE_AMPLITUDE = 0.15`. -/
def NOISE_AMPLITUDE : ℚ := 3/20

/-- `CONFIG.MAX_Z = 0.23`. -/
def MAX_Z : ℚ := 23/100

/-- `CONFIG.RATE_Z = 0.5`. -/
def RATE_Z : ℚ := 1/2

/-- `CONFIG.PARTICLE_COUNT = 10000`. -/
def PARTICLE_COUNT : ℕ := 10000

/-- `CONFIG.PARTICLE_RANDOM_FACTOR = 0.03`. -/
def PARTICLE_RANDOM_FACTOR : ℚ := 3/100

/-- Variant 1 precomputed constant `MAX_Z_RATE_Z = CONFIG.MAX_Z * CONFIG.RATE_Z`.
Variant 2 writes the product out inline; the value is the same. -/
def MAX_Z_RATE_Z : ℚ := MAX_Z * RATE_Z

/-- Variant 1 precomputed constant
`NOISE_SCALE_AMPLITUDE = CONFIG.NOISE_SCALE * CONFIG.NOISE_AMPLITUDE`. -/
def NOISE_SCALE_AMPLITUDE : ℚ := NOISE_SCALE * NOISE_AMPLITUDE

/-! ## Vertex displacement (`updateHeartGeometry`) -/

/-- Loop body of variant 1 `updateHeartGeometry` for one origin vertex:
`noise = simplex.noise4D(x*NOISE_SCALE, y*NOISE_SCALE, z*NOISE_SCALE, time*0.0005) + 1;`
`scale = noise * NOISE_SCALE_AMPLITUDE * beat;` then each component of the
origin vertex is multiplied by `scale`. -/
def displaceVertex_v1 (n : Noise4) (beat time : ℚ) (v : Vec3) : Vec3 :=
  let noise :=
    n (v.x * NOISE_SCALE) (v.y * NOISE_SCALE) (v.z * NOISE_SCALE)
      (time * (5/10000)) + 1
  let scale := noise * NOISE_SCALE_AMPLITUDE * beat
  ⟨v.x * scale, v.y * scale, v.z * scale⟩

/-- Loop body of variant 2 `updateHeartGeometry` for one origin vertex:
the same noise sample, but the vertex is scaled by
`noise * CONFIG.NOISE_AMPLITUDE * this.beat.a` (no `NOISE_SCALE` factor). -/
def displaceVertex_v2 (n : Noise4) (beat time : ℚ) (v : Vec3) : Vec3 :=
  let noise :=
    n (v.x * NOISE_SCALE) (v.y * NOISE_SCALE) (v.z * NOISE_SCALE)
      (time * (5/10000)) + 1
  scaleVec ⟨v.x, v.y, v.z⟩ (noise * NOISE_AMPLITUDE * beat)

/-- Variant 1 `updateHeartGeometry` over the flat position array: the loop
`for (i = 0; i < vs.length; i += 3)` reads the origin triple at `i` and
writes the displaced triple at `i`. -/
def displaceAll_v1 (n : Noise4) (beat time : ℚ) : List ℚ → List ℚ
  | x :: y :: z :: rest =>
      let v := displaceVertex_v1 n beat time ⟨x, y, z⟩
      v.x :: v.y :: v.z :: displaceAll_v1 n beat time rest
  | l => l

/-- Variant 2 `updateHeartGeometry` over the flat position array. -/
def displaceAll_v2 (n : Noise4) (beat time : ℚ) : List ℚ → List ℚ
  | x :: y :: z :: rest =>
      let v := displaceVertex_v2 n beat time ⟨x, y, z⟩
      v.x :: v.y :: v.z :: displaceAll_v2 n beat time rest
  | l => l

/-- The mesh state touched by `updateHeartGeometry`: `originHeart` is the
flat origin array captured once in `setupSampler`
(`this.originHeart = Array.from(this.heart.geometry.attributes.position.array)`),
and `vs` is the live `geometry.attributes.position.array` the loop writes. -/
structure HeartState where
  originHeart : List ℚ
  vs : List ℚ
  deriving DecidableEq, Repr

/-- Variant 1 `updateHeartGeometry` as a state transition: only `vs` is
written, recomputed wholly from `originHeart`, `beat` and `time`. -/
def updateHeartGeometry_v1 (n : Noise4) (beat time : ℚ) (st : HeartState) :
    HeartState :=
  { st with vs := displaceAll_v1 n beat time st.originHeart }

/-- Variant 2 `updateHeartGeometry` as a state transition. -/
def updateHeartGeometry_v2 (n : Noise4) (beat time : ℚ) (st : HeartState) :
    HeartState :=
  { st with vs := displaceAll_v2 n beat time st.originHeart }

/-! ## Spark points (`SparkPoint`) -/

/-- A spark particle.  The constructor samples `pos` from the surface
sampler, picks `color` from the palette and `rand` from
`[0, PARTICLE_RANDOM_FACTOR)`, all fixed for the spark's lifetime;
`one` ("near" layer) and `two` ("far" layer) are derived positions
rewritten by every `update` call (the source initializes them to `null`
and always writes them before any read). -/
structure SparkPoint where
  pos : Vec3
  color : Color3
  rand : ℚ
  one : Vec3
  two : Vec3
  deriving DecidableEq, Repr

/-- Variant 1 `SparkPoint.update(beat)` (argument is `beat.a`):
`noise = simplex.noise4D(pos.x*1, pos.y*1, pos.z*1, 0.1) + 1.5;`
`noise2 = simplex.noise4D(pos.x*NOISE_FREQUENCY, ..., 1) + 1;`
`one = pos.clone().multiplyScalar(1.01 + noise * NOISE_SCALE_AMPLITUDE * beat.a);`
`two = pos.clone().multiplyScalar(1 + noise2 * (beat.a + 0.3) - beat.a * 1.2);` -/
def SparkPoint.update_v1 (n : Noise4) (beatA : ℚ) (s : SparkPoint) :
    SparkPoint :=
  let noise := n (s.pos.x * 1) (s.pos.y * 1) (s.pos.z * 1) (1/10) + 3/2
  let noise2 :=
    n (s.pos.x * NOISE_FREQUENCY) (s.pos.y * NOISE_FREQUENCY)
      (s.pos.z * NOISE_FREQUENCY) 1 + 1
  { s with
      one := scaleVec s.pos (101/100 + noise * NOISE_SCALE_AMPLITUDE * beatA)
      two := scaleVec s.pos (1 + noise2 * (beatA + 3/10) - beatA * (12/10)) }

/-- Variant 2 `SparkPoint.update(beat)`: identical except the "near" layer
scalar uses `CONFIG.NOISE_AMPLITUDE` alone:
`one = pos.clone().multiplyScalar(1.01 + noise * CONFIG.NOISE_AMPLITUDE * beat.a);` -/
def SparkPoint.update_v2 (n : Noise4) (beatA : ℚ) (s : SparkPoint) :
    SparkPoint :=
  let noise := n (s.pos.x * 1) (s.pos.y * 1) (s.pos.z * 1) (1/10) + 3/2
  let noise2 :=
    n (s.pos.x * NOISE_FREQUENCY) (s.pos.y * NOISE_FREQUENCY)
      (s.pos.z * NOISE_FREQUENCY) 1 + 1
  { s with
      one := scaleVec s.pos (101/100 + noise * NOISE_AMPLITUDE * beatA)
      two := scaleVec s.pos (1 + noise2 * (beatA + 3/10) - beatA * (12/10)) }

/-! ## Render buffer assembly (`updateParticles`) -/

/-- The depth window test of the first ("near") particle layer, exactly as
written in both variants:
`MAX_Z_RATE_Z + rand > one.z && one.z > -MAX_Z_RATE_Z - rand`. -/
abbrev nearWindow (rand z : ℚ) : Prop :=
  MAX_Z_RATE_Z + rand > z ∧ z > -MAX_Z_RATE_Z - rand

/-- The depth window test of the second ("far") particle layer; note the
source tests `one.z` (the near position) here too:
`MAX_Z_RATE_Z + rand * 2 > one.z && one.z > -MAX_Z_RATE_Z - rand * 2`. -/
abbrev farWindow (rand z : ℚ) : Prop :=
  MAX_Z_RATE_Z + rand * 2 > z ∧ z > -MAX_Z_RATE_Z - rand * 2

/-- The body of the `updateParticles` loop for one spark: run `update`,
then conditionally append the near-layer triple and the far-layer triple
(with the spark's color) to the position/color buffers.  Both variants
have the same body; the spark `update` function is a parameter (`upd`)
so that either variant (with any noise function and beat) can be plugged
in.  Returns the updated spark and its position/color contributions. -/
def stepSpike (upd : SparkPoint → SparkPoint) (s : SparkPoint) :
    SparkPoint × List ℚ × List ℚ :=
  let s' := upd s
  let one := s'.one
  let two := s'.two
  let nearPos :=
    if nearWindow s'.rand one.z then [one.x, one.y, one.z] else []
  let nearCol :=
    if nearWindow s'.rand one.z then [s'.color.r, s'.color.g, s'.color.b] else []
  let farPos :=
    if farWindow s'.rand one.z then [two.x, two.y, two.z] else []
  let farCol :=
    if farWindow s'.rand one.z then [s'.color.r, s'.color.g, s'.color.b] else []
  (s', nearPos ++ farPos, nearCol ++ farCol)

/-- `updateParticles`: iterate the sparks in order, appending each spark's
contributions; the assembled flat buffers replace the previous frame's
buffers (variant 1 fills a preallocated array and submits the filled
prefix, variant 2 pushes onto fresh arrays — the submitted contents are
the same concatenation). -/
def updateParticles (upd : SparkPoint → SparkPoint) :
    List SparkPoint → List SparkPoint × List ℚ × List ℚ
  | [] => ([], [], [])
  | s :: rest =>
      ((stepSpike upd s).1 :: (updateParticles upd rest).1,
       (stepSpike upd s).2.1 ++ (updateParticles upd rest).2.1,
       (stepSpike upd s).2.2 ++ (updateParticles upd rest).2.2)

/-! ## Model-load error handling (`onHeartError`) -/

/-- The user-facing action attached to an error notification. -/
inductive RetryAction where
  | loadHeartModel
  | reloadPage
  deriving DecidableEq, Repr

/-- What an error handler surfaces to the user: a message and an optional
retry action wired to the retry button. -/
structure ErrorSurface where
  message : String
  retry : Option RetryAction
  deriving DecidableEq, Repr

/-- Variant 1 `onHeartError`: calls
`Utils.showError(msg, () => { this.loadHeartModel(); })`, which shows the
retry button and wires it to re-invoke the model fetch. -/
def onHeartError_v1 : ErrorSurface :=
  { message := "Failed to load heart model. Please check your internet connection and refresh the page."
    retry := some RetryAction.loadHeartModel }

/-- Variant 2 `onHeartError`: calls `this.showError("Failed to load heart model")`;
that `showError` only replaces the loading element with static text
("Please refresh the page to try again.") and installs no retry action. -/
def onHeartError_v2 : ErrorSurface :=
  { message := "Failed to load heart model"
    retry := none }

/-! ## Concrete instances used by counterexamples and witnesses -/

/-- The constantly-zero noise function (a legitimate `Noise4`: range within
`[-1, 1]`). -/
def zeroNoise : Noise4 := fun _ _ _ _ => 0

/-- A concrete spark used in witnesses. -/
def sparkA : SparkPoint :=
  { pos := ⟨1, 0, 0⟩, color := ⟨1, 0, 0⟩, rand := 0,
    one := ⟨0, 0, 0⟩, two := ⟨0, 0, 0⟩ }

/-- A second concrete spark with the same origin as `sparkA` but different
derived positions, color and jitter. -/
def sparkB : SparkPoint :=
  { pos := ⟨1, 0, 0⟩, color := ⟨0, 1, 0⟩, rand := 1/50,
    one := ⟨7, 7, 7⟩, two := ⟨8, 8, 8⟩ }

/-! ## Helper lemmas -/

theorem displaceAll_v1_beat_zero (n : Noise4) (t : ℚ) :
    ∀ l : List ℚ, 3 ∣ l.length →
      displaceAll_v1 n 0 t l = List.replicate l.length 0
  | [], _ => by simp [displaceAll_v1]
  | [x], h => by simp at h
  | [x, y], h => by simp at h; omega
  | x :: y :: z :: rest, h => by
      have h3 : 3 ∣ rest.length := by
        simp only [List.length_cons] at h
        omega
      have ih := displaceAll_v1_beat_zero n t rest h3
      simp [displaceAll_v1, displaceVertex_v1, List.replicate_succ, ih]

theorem displaceAll_v2_beat_zero (n : Noise4) (t : ℚ) :
    ∀ l : List ℚ, 3 ∣ l.length →
      displaceAll_v2 n 0 t l = List.replicate l.length 0
  | [], _ => by simp [displaceAll_v2]
  | [x], h => by simp at h
  | [x, y], h => by simp at h; omega
  | x :: y :: z :: rest, h => by
      have h3 : 3 ∣ rest.length := by
        simp only [List.length_cons] at h
        omega
      have ih := displaceAll_v2_beat_zero n t rest h3
      simp [displaceAll_v2, displaceVertex_v2, scaleVec, List.replicate_succ, ih]

theorem updateHeartGeometry_v1_origin (n : Noise4) (b t : ℚ)
    (st : HeartState) :
    (updateHeartGeometry_v1 n b t st).originHeart = st.originHeart := rfl

theorem updateHeartGeometry_v2_origin (n : Noise4) (b t : ℚ)
    (st : HeartState) :
    (updateHeartGeometry_v2 n b t st).originHeart = st.originHeart := rfl

theorem foldl_updateHeartGeometry_v1_origin (n : Noise4)
    (updates : List (ℚ × ℚ)) (st : HeartState) :
    (updates.foldl (fun s bt => updateHeartGeometry_v1 n bt.1 bt.2 s)
        st).originHeart = st.originHeart := by
  induction updates generalizing st with
  | nil => rfl
  | cons u rest ih => simpa using ih (updateHeartGeometry_v1 n u.1 u.2 st)

theorem foldl_updateHeartGeometry_v2_origin (n : Noise4)
    (updates : List (ℚ × ℚ)) (st : HeartState) :
    (updates.foldl (fun s bt => updateHeartGeometry_v2 n bt.1 bt.2 s)
        st).originHeart = st.originHeart := by
  induction updates generalizing st with
  | nil => rfl
  | cons u rest ih => simpa using ih (updateHeartGeometry_v2 n u.1 u.2 st)

theorem update_v1_fixed_fields (n : Noise4) (b : ℚ) (s : SparkPoint) :
    (SparkPoint.update_v1 n b s).pos = s.pos ∧
    (SparkPoint.update_v1 n b s).color = s.color ∧
    (SparkPoint.update_v1 n b s).rand = s.rand :=
  ⟨rfl, rfl, rfl⟩

theorem update_v2_fixed_fields (n : Noise4) (b : ℚ) (s : SparkPoint) :
    (SparkPoint.update_v2 n b s).pos = s.pos ∧
    (SparkPoint.update_v2 n b s).color = s.color ∧
    (SparkPoint.update_v2 n b s).rand = s.rand :=
  ⟨rfl, rfl, rfl⟩

theorem foldl_update_v1_fixed_fields (n : Noise4) (beats : List ℚ)
    (s : SparkPoint) :
    (beats.foldl (fun s b => SparkPoint.update_v1 n b s) s).pos = s.pos ∧
    (beats.foldl (fun s b => SparkPoint.update_v1 n b s) s).color = s.color ∧
    (beats.foldl (fun s b => SparkPoint.update_v1 n b s) s).rand = s.rand := by
  induction beats generalizing s with
  | nil => exact ⟨rfl, rfl, rfl⟩
  | cons b rest ih => simpa using ih (SparkPoint.update_v1 n b s)

theorem foldl_update_v2_fixed_fields (n : Noise4) (beats : List ℚ)
    (s : SparkPoint) :
    (beats.foldl (fun s b => SparkPoint.update_v2 n b s) s).pos = s.pos ∧
    (beats.foldl (fun s b => SparkPoint.update_v2 n b s) s).color = s.color ∧
    (beats.foldl (fun s b => SparkPoint.update_v2 n b s) s).rand = s.rand := by
  induction beats generalizing s with
  | nil => exact ⟨rfl, rfl, rfl⟩
  | cons b rest ih => simpa using ih (SparkPoint.update_v2 n b s)

theorem nearWindow_iff_abs (j z : ℚ) :
    nearWindow j z ↔ |z| < MAX_Z * RATE_Z + 1 * j := by
  unfold nearWindow MAX_Z_RATE_Z
  rw [abs_lt]
  constructor <;> rintro ⟨h1, h2⟩ <;> constructor <;> linarith

theorem farWindow_iff_abs (j z : ℚ) :
    farWindow j z ↔ |z| < MAX_Z * RATE_Z + 2 * j := by
  unfold farWindow MAX_Z_RATE_Z
  rw [abs_lt]
  constructor <;> rintro ⟨h1, h2⟩ <;> constructor <;> linarith

/-! ## Claim C1 -/

/-- Claim C1, counterexample.  The claim asserts that BOTH variants scale
each origin vertex by `(noise + 1) * (NOISE_SCALE * NOISE_AMPLITUDE) * beat`.
Variant 2 multiplies by `noise * CONFIG.NOISE_AMPLITUDE * beat` instead
(no `NOISE_SCALE` factor): with the zero noise function, `beat = 1`,
`time = 0` and origin vertex `(1,0,0)`, variant 2 yields `x = 3/20 = 0.15`
while the claimed formula yields `x = 9/40 = 0.225`. -/
theorem C1_counterexample :
    displaceVertex_v2 zeroNoise 1 0 ⟨1, 0, 0⟩ ≠
      scaleVec ⟨1, 0, 0⟩ ((0 + 1) * (NOISE_SCALE * NOISE_AMPLITUDE) * 1) := by
  intro h
  have hx := congrArg Vec3.x h
  simp only [displaceVertex_v2, zeroNoise, scaleVec] at hx
  norm_num [NOISE_SCALE, NOISE_AMPLITUDE] at hx

/-- Claim C1, amended.  For every origin vertex and frame, both variants
evaluate the noise at `(x*NOISE_SCALE, y*NOISE_SCALE, z*NOISE_SCALE,
time*0.0005)`, shift it by `+1`, and write the new position as the origin
position scaled component-wise by a single scalar; the scalar is
`(noise+1) * (NOISE_SCALE * NOISE_AMPLITUDE) * beat` in variant 1 but
`(noise+1) * NOISE_AMPLITUDE * beat` in variant 2. -/
theorem C1_displace_scale_variants (n : Noise4) (beat time : ℚ) (v : Vec3) :
    displaceVertex_v1 n beat time v =
      scaleVec v
        ((n (v.x * NOISE_SCALE) (v.y * NOISE_SCALE) (v.z * NOISE_SCALE)
            (time * (5/10000)) + 1) *
          (NOISE_SCALE * NOISE_AMPLITUDE) * beat) ∧
    displaceVertex_v2 n beat time v =
      scaleVec v
        ((n (v.x * NOISE_SCALE) (v.y * NOISE_SCALE) (v.z * NOISE_SCALE)
            (time * (5/10000)) + 1) *
          NOISE_AMPLITUDE * beat) := by
  constructor <;>
    simp [displaceVertex_v1, displaceVertex_v2, scaleVec,
      NOISE_SCALE_AMPLITUDE]

/-! ## Claim C2 -/

/-- Claim C2, counterexample.  The claim asserts that BOTH variants set the
near-layer position to `origin * (1.01 + noise1 * noise_scale *
noise_amplitude * beat)`.  Variant 2 uses `CONFIG.NOISE_AMPLITUDE` alone:
with the zero noise function, `beat = 1` and origin `(1,0,0)`, variant 2
yields `x = 1.01 + 1.5*0.15 = 1.235` while the claimed formula yields
`x = 1.01 + 1.5*0.225 = 1.3475`. -/
theorem C2_counterexample :
    (SparkPoint.update_v2 zeroNoise 1 sparkA).one ≠
      scaleVec sparkA.pos
        (101/100 + (0 + 3/2) * (NOISE_SCALE * NOISE_AMPLITUDE) * 1) := by
  intro h
  have hx := congrArg Vec3.x h
  simp only [SparkPoint.update_v2, zeroNoise, scaleVec, sparkA] at hx
  norm_num [NOISE_SCALE, NOISE_AMPLITUDE] at hx

/-- Claim C2, amended.  For every spark with origin `p`, both variants
compute `noise1 = noise4D(p.x, p.y, p.z, 0.1) + 1.5` (the 4th noise input
is the constant `0.1`, never elapsed time) and set the far-layer position
to `p * (1 + noise2 * (beat + 0.3) - beat * 1.2)`; the near-layer position
is `p * (1.01 + noise1 * NOISE_SCALE * NOISE_AMPLITUDE * beat)` in variant 1
but `p * (1.01 + noise1 * NOISE_AMPLITUDE * beat)` in variant 2. -/
theorem C2_spark_layer_formulas (n : Noise4) (b : ℚ) (s : SparkPoint) :
    (SparkPoint.update_v1 n b s).one =
      scaleVec s.pos
        (101/100 + (n s.pos.x s.pos.y s.pos.z (1/10) + 3/2) *
          (NOISE_SCALE * NOISE_AMPLITUDE) * b) ∧
    (SparkPoint.update_v2 n b s).one =
      scaleVec s.pos
        (101/100 + (n s.pos.x s.pos.y s.pos.z (1/10) + 3/2) *
          NOISE_AMPLITUDE * b) ∧
    (SparkPoint.update_v1 n b s).two =
      scaleVec s.pos
        (1 + (n (s.pos.x * NOISE_FREQUENCY) (s.pos.y * NOISE_FREQUENCY)
            (s.pos.z * NOISE_FREQUENCY) 1 + 1) * (b + 3/10) - b * (12/10)) ∧
    (SparkPoint.update_v2 n b s).two =
      scaleVec s.pos
        (1 + (n (s.pos.x * NOISE_FREQUENCY) (s.pos.y * NOISE_FREQUENCY)
            (s.pos.z * NOISE_FREQUENCY) 1 + 1) * (b + 3/10) - b * (12/10)) := by
  refine ⟨?_, ?_, ?_, ?_⟩ <;>
    simp [SparkPoint.update_v1, SparkPoint.update_v2, NOISE_SCALE_AMPLITUDE]

/-! ## Claim C9 -/

/-- Claim C9, counterexample.  The claim asserts that EVERY variant's
model-load error handler surfaces the failure with an explicit retry
action re-invoking the fetch; variant 2's `onHeartError` shows static
text with no retry action at all. -/
theorem C9_counterexample : onHeartError_v2.retry = none := rfl

/-- Claim C9, amended.  Variant 1's `onHeartError` surfaces the failure
with a retry action that re-invokes `loadHeartModel`; variant 2's
`onHeartError` surfaces only a message (telling the user to refresh)
with no retry action. -/
theorem C9_retry_variants :
    onHeartError_v1.retry = some RetryAction.loadHeartModel ∧
    onHeartError_v2.retry = none :=
  ⟨rfl, rfl⟩

/-! ## Claim C3 -/

/-- Claim C3, confirmed.  For every spark and frame (any update function,
hence any variant, noise function and beat): the near-layer triple is
appended iff the near position's z lies strictly within
`±(MAX_Z * RATE_Z + 1 * jitter)`, and the far-layer triple is appended iff
the NEAR position's z lies strictly within `±(MAX_Z * RATE_Z + 2 * jitter)`;
a layer failing its test contributes nothing to either buffer. -/
theorem C3_layer_visibility (upd : SparkPoint → SparkPoint) (s : SparkPoint) :
    (stepSpike upd s).2.1 =
      ((if |(upd s).one.z| < MAX_Z * RATE_Z + 1 * (upd s).rand then
          [(upd s).one.x, (upd s).one.y, (upd s).one.z] else []) ++
       (if |(upd s).one.z| < MAX_Z * RATE_Z + 2 * (upd s).rand then
          [(upd s).two.x, (upd s).two.y, (upd s).two.z] else [])) ∧
    (stepSpike upd s).2.2 =
      ((if |(upd s).one.z| < MAX_Z * RATE_Z + 1 * (upd s).rand then
          [(upd s).color.r, (upd s).color.g, (upd s).color.b] else []) ++
       (if |(upd s).one.z| < MAX_Z * RATE_Z + 2 * (upd s).rand then
          [(upd s).color.r, (upd s).color.g, (upd s).color.b] else [])) := by
  refine ⟨?_, ?_⟩ <;>
  · simp only [stepSpike]
    rw [if_congr (nearWindow_iff_abs _ _) rfl rfl,
        if_congr (farWindow_iff_abs _ _) rfl rfl]

/-! ## Claim C5 -/

/-- Claim C5, confirmed.  The depth-window test is monotonic in jitter:
with the near z and the layer fixed, any z accepted under jitter `j1` is
accepted under any jitter `j2 ≥ j1`, for both the near and far layers. -/
theorem C5_visibility_monotone (j1 j2 z : ℚ) (hj : j1 ≤ j2) :
    (nearWindow j1 z → nearWindow j2 z) ∧
    (farWindow j1 z → farWindow j2 z) := by
  unfold nearWindow farWindow
  constructor <;> rintro ⟨h1, h2⟩ <;> constructor <;> linarith

/-- Witness for C5 at `j1 = 0`, `j2 = 1/100`, `z = 0`. -/
theorem C5_visibility_monotone_witness :
    (0 : ℚ) ≤ 1/100 ∧
    ((nearWindow 0 0 → nearWindow (1/100) 0) ∧
     (farWindow 0 0 → farWindow (1/100) 0)) :=
  ⟨by norm_num, C5_visibility_monotone 0 (1/100) 0 (by norm_num)⟩

/-! ## Claim C10 -/

/-- Claim C10, confirmed.  For any spark whose (post-update) jitter is
nonnegative, if the near-layer depth test passes then the far-layer depth
test also passes (both test the same near z, and the far window is wider),
and the spark's position contribution for the frame then contains both the
near and the far triples — a near entry never appears without its far
entry. -/
theorem C10_near_implies_far (upd : SparkPoint → SparkPoint) (s : SparkPoint)
    (h0 : 0 ≤ (upd s).rand)
    (hnear : nearWindow (upd s).rand (upd s).one.z) :
    farWindow (upd s).rand (upd s).one.z ∧
    (stepSpike upd s).2.1 =
      [(upd s).one.x, (upd s).one.y, (upd s).one.z,
       (upd s).two.x, (upd s).two.y, (upd s).two.z] := by
  have hfar : farWindow (upd s).rand (upd s).one.z := by
    obtain ⟨h1, h2⟩ := hnear
    exact ⟨by linarith, by linarith⟩
  refine ⟨hfar, ?_⟩
  simp only [stepSpike]
  rw [if_pos hnear, if_pos hfar]
  rfl

/-- A concrete spark used in the C10 witness: zero jitter, near z at the
window center. -/
def sparkC : SparkPoint :=
  { pos := ⟨0, 0, 0⟩, color := ⟨1, 1, 1⟩, rand := 0,
    one := ⟨1, 2, 0⟩, two := ⟨3, 4, 5⟩ }

/-- Witness for C10 at the identity update and `sparkC`. -/
theorem C10_near_implies_far_witness :
    (0 ≤ (id sparkC).rand ∧ nearWindow (id sparkC).rand (id sparkC).one.z) ∧
    (farWindow (id sparkC).rand (id sparkC).one.z ∧
     (stepSpike id sparkC).2.1 =
       [(id sparkC).one.x, (id sparkC).one.y, (id sparkC).one.z,
        (id sparkC).two.x, (id sparkC).two.y, (id sparkC).two.z]) :=
  ⟨⟨by norm_num [sparkC, id_eq],
    by norm_num [nearWindow, sparkC, id_eq, MAX_Z_RATE_Z, MAX_Z, RATE_Z]⟩,
   C10_near_implies_far id sparkC (by norm_num [sparkC, id_eq])
     (by norm_num [nearWindow, sparkC, id_eq, MAX_Z_RATE_Z, MAX_Z, RATE_Z])⟩

/-! ## Claim C6 -/

theorem stepSpike_lengths (upd : SparkPoint → SparkPoint) (s : SparkPoint) :
    (stepSpike upd s).2.1.length = (stepSpike upd s).2.2.length ∧
    3 ∣ (stepSpike upd s).2.1.length ∧
    (stepSpike upd s).2.1.length ≤ 6 := by
  simp only [stepSpike]
  split_ifs <;> refine ⟨by simp, by simp; try omega, by simp⟩

theorem updateParticles_lengths (upd : SparkPoint → SparkPoint) :
    ∀ spikes : List SparkPoint,
      (updateParticles upd spikes).2.1.length =
        (updateParticles upd spikes).2.2.length ∧
      3 ∣ (updateParticles upd spikes).2.1.length ∧
      (updateParticles upd spikes).2.1.length ≤ 6 * spikes.length
  | [] => by simp [updateParticles]
  | s :: rest => by
      obtain ⟨h1, h2, h3⟩ := updateParticles_lengths upd rest
      obtain ⟨g1, g2, g3⟩ := stepSpike_lengths upd s
      simp only [updateParticles, List.length_append, List.length_cons]
      exact ⟨by omega, dvd_add g2 h2, by omega⟩

/-- Claim C6, confirmed.  After render-buffer assembly over any spark list
of at most `PARTICLE_COUNT` sparks (for any update function, hence any
beat, jitter values and noise function), the position and color buffers
have equal lengths, divisible by 3, and at most `2 * PARTICLE_COUNT * 3`
entries. -/
theorem C6_render_buffer_lengths (upd : SparkPoint → SparkPoint)
    (spikes : List SparkPoint) (h : spikes.length ≤ PARTICLE_COUNT) :
    (updateParticles upd spikes).2.1.length =
      (updateParticles upd spikes).2.2.length ∧
    3 ∣ (updateParticles upd spikes).2.1.length ∧
    (updateParticles upd spikes).2.1.length ≤ 2 * PARTICLE_COUNT * 3 := by
  obtain ⟨h1, h2, h3⟩ := updateParticles_lengths upd spikes
  refine ⟨h1, h2, ?_⟩
  unfold PARTICLE_COUNT at h ⊢
  omega

/-- Witness for C6 on a one-spark list with the identity update. -/
theorem C6_render_buffer_lengths_witness :
    [sparkA].length ≤ PARTICLE_COUNT ∧
    ((updateParticles id [sparkA]).2.1.length =
       (updateParticles id [sparkA]).2.2.length ∧
     3 ∣ (updateParticles id [sparkA]).2.1.length ∧
     (updateParticles id [sparkA]).2.1.length ≤ 2 * PARTICLE_COUNT * 3) :=
  ⟨by norm_num [PARTICLE_COUNT],
   C6_render_buffer_lengths id [sparkA] (by norm_num [PARTICLE_COUNT])⟩

/-! ## Claim C4 -/

/-- Claim C4, confirmed.  With `beat = 0`, after any prior sequence of
updates with arbitrary beat and time values, one run of
`updateHeartGeometry` (either variant) writes every displaced vertex as
`(0,0,0)`: the whole live position array becomes zeros.  (The origin array
has a whole number of vertices, i.e. length divisible by 3.) -/
theorem C4_beat_zero_collapse (n : Noise4) (updates : List (ℚ × ℚ)) (t : ℚ)
    (st : HeartState) (h : 3 ∣ st.originHeart.length) :
    (updateHeartGeometry_v1 n 0 t
        (updates.foldl (fun s bt => updateHeartGeometry_v1 n bt.1 bt.2 s)
          st)).vs =
      List.replicate st.originHeart.length 0 ∧
    (updateHeartGeometry_v2 n 0 t
        (updates.foldl (fun s bt => updateHeartGeometry_v2 n bt.1 bt.2 s)
          st)).vs =
      List.replicate st.originHeart.length 0 := by
  constructor
  · show displaceAll_v1 n 0 t
        ((updates.foldl (fun s bt => updateHeartGeometry_v1 n bt.1 bt.2 s)
          st).originHeart) = _
    rw [foldl_updateHeartGeometry_v1_origin]
    exact displaceAll_v1_beat_zero n t st.originHeart h
  · show displaceAll_v2 n 0 t
        ((updates.foldl (fun s bt => updateHeartGeometry_v2 n bt.1 bt.2 s)
          st).originHeart) = _
    rw [foldl_updateHeartGeometry_v2_origin]
    exact displaceAll_v2_beat_zero n t st.originHeart h

/-- A concrete mesh state (one vertex) used in the C4 witness. -/
def heartStA : HeartState := { originHeart := [1, 2, 3], vs := [9, 9, 9] }

/-- Witness for C4: one nonzero-beat update followed by a beat-0 update. -/
theorem C4_beat_zero_collapse_witness :
    3 ∣ heartStA.originHeart.length ∧
    ((updateHeartGeometry_v1 zeroNoise 0 0
        ([((1 : ℚ)/2, (7 : ℚ))].foldl
          (fun s bt => updateHeartGeometry_v1 zeroNoise bt.1 bt.2 s)
          heartStA)).vs =
      List.replicate heartStA.originHeart.length 0 ∧
     (updateHeartGeometry_v2 zeroNoise 0 0
        ([((1 : ℚ)/2, (7 : ℚ))].foldl
          (fun s bt => updateHeartGeometry_v2 zeroNoise bt.1 bt.2 s)
          heartStA)).vs =
      List.replicate heartStA.originHeart.length 0) :=
  ⟨by norm_num [heartStA],
   C4_beat_zero_collapse zeroNoise [((1 : ℚ)/2, (7 : ℚ))] 0 heartStA
     (by norm_num [heartStA])⟩

/-! ## Claim C7 -/

/-- Claim C7, confirmed.  For a fixed noise function and beat, the near and
far positions written by `SparkPoint.update` depend only on the spark's
origin position: two sparks with the same origin — whatever their colors,
jitters, or previously stored derived positions (i.e. any call history) —
receive identical near and far positions, in both variants. -/
theorem C7_update_pure_in_beat (n : Noise4) (b : ℚ) (s1 s2 : SparkPoint)
    (h : s1.pos = s2.pos) :
    ((SparkPoint.update_v1 n b s1).one = (SparkPoint.update_v1 n b s2).one ∧
     (SparkPoint.update_v1 n b s1).two = (SparkPoint.update_v1 n b s2).two) ∧
    ((SparkPoint.update_v2 n b s1).one = (SparkPoint.update_v2 n b s2).one ∧
     (SparkPoint.update_v2 n b s1).two = (SparkPoint.update_v2 n b s2).two) := by
  simp [SparkPoint.update_v1, SparkPoint.update_v2, h]

/-- Witness for C7: `sparkA` and `sparkB` share an origin but differ in
color, jitter and stored derived positions. -/
theorem C7_update_pure_in_beat_witness :
    sparkA.pos = sparkB.pos ∧
    (((SparkPoint.update_v1 zeroNoise (1/2) sparkA).one =
        (SparkPoint.update_v1 zeroNoise (1/2) sparkB).one ∧
      (SparkPoint.update_v1 zeroNoise (1/2) sparkA).two =
        (SparkPoint.update_v1 zeroNoise (1/2) sparkB).two) ∧
     ((SparkPoint.update_v2 zeroNoise (1/2) sparkA).one =
        (SparkPoint.update_v2 zeroNoise (1/2) sparkB).one ∧
      (SparkPoint.update_v2 zeroNoise (1/2) sparkA).two =
        (SparkPoint.update_v2 zeroNoise (1/2) sparkB).two)) :=
  ⟨rfl, C7_update_pure_in_beat zeroNoise (1/2) sparkA sparkB rfl⟩

/-! ## Claim C8 -/

/-- Claim C8, confirmed.  Across any sequence of per-frame updates: the
mesh origin array `originHeart` is never overwritten by
`updateHeartGeometry` (either variant, any beats and times), and a spark's
origin position, color and jitter scalar are never overwritten by
`SparkPoint.update` (either variant, any beats); only the derived buffers
(`vs`, `one`, `two`) change. -/
theorem C8_origins_never_overwritten :
    (∀ (n : Noise4) (updates : List (ℚ × ℚ)) (st : HeartState),
        (updates.foldl (fun s bt => updateHeartGeometry_v1 n bt.1 bt.2 s)
          st).originHeart = st.originHeart) ∧
    (∀ (n : Noise4) (updates : List (ℚ × ℚ)) (st : HeartState),
        (updates.foldl (fun s bt => updateHeartGeometry_v2 n bt.1 bt.2 s)
          st).originHeart = st.originHeart) ∧
    (∀ (n : Noise4) (beats : List ℚ) (s : SparkPoint),
        (beats.foldl (fun s b => SparkPoint.update_v1 n b s) s).pos = s.pos ∧
        (beats.foldl (fun s b => SparkPoint.update_v1 n b s) s).color =
          s.color ∧
        (beats.foldl (fun s b => SparkPoint.update_v1 n b s) s).rand =
          s.rand) ∧
    (∀ (n : Noise4) (beats : List ℚ) (s : SparkPoint),
        (beats.foldl (fun s b => SparkPoint.update_v2 n b s) s).pos = s.pos ∧
        (beats.foldl (fun s b => SparkPoint.update_v2 n b s) s).color =
          s.color ∧
        (beats.foldl (fun s b => SparkPoint.update_v2 n b s) s).rand =
          s.rand) :=
  ⟨foldl_updateHeartGeometry_v1_origin, foldl_updateHeartGeometry_v2_origin,
   foldl_update_v1_fixed_fields, foldl_update_v2_fixed_fields⟩
